import Mathlib

/-!
Verification development for the copilot-status session-aggregation engine.

The embedding follows `src/utils/session-processor.ts` and `src/utils/logger.ts`.
JavaScript numbers are modelled as `Nat`/`Int` for counts and millisecond
timestamps and as `ℚ` for costs and averages.  The JavaScript `Date` library
(`new Date(string)`, `toISOString`, `getHours`) and `JSON.parse` are external
runtime collaborators; they are abstracted as explicit function parameters
(`DateLib`, `jsonParse`, `parseLine`) so that every theorem quantifies over
their behaviour, and concrete witnesses instantiate them with small lookup
tables.
-/

namespace CopilotStatus

/-- A JSON value, as produced by `JSON.parse`. -/
inductive Json where
  | null
  | bool (b : Bool)
  | num (q : ℚ)
  | str (s : String)
  | arr (elems : List Json)
  | obj (fields : List (String × Json))

/-- Property access `j.k` on a parsed JSON value: defined only on objects,
`undefined` (here `none`) otherwise.  JS objects have unique keys, so
first-match lookup is exact. -/
def Json.getField : Json → String → Option Json
  | .obj fields, k => go fields k
  | _, _ => none
where go : List (String × Json) → String → Option Json
  | [], _ => none
  | (k2, v) :: rest, k => if k2 = k then some v else go rest k

/-- Extracts a JS string value (`typeof x === 'string'`). -/
def Json.asStr : Option Json → Option String
  | some (.str s) => some s
  | _ => none

/-- JS truthiness of an optional string: `undefined` and `""` are falsy. -/
def jsTruthyStr : Option String → Bool
  | none => false
  | some s => s ≠ ""

/-- `s.trim()` is falsy exactly when every character is whitespace.
(The session files and log lines in scope use only these whitespace chars.) -/
def isBlank (s : String) : Bool :=
  s.data.all (fun c => c = ' ' || c = '\t' || c = '\n' || c = '\r')

/-- `a.split(sep)` for a one-character separator, as in `logData.split('\n')`. -/
def splitCharAux (sep : Char) : List Char → List Char → List String
  | [], acc => [String.mk acc.reverse]
  | c :: rest, acc =>
    if c = sep then String.mk acc.reverse :: splitCharAux sep rest []
    else splitCharAux sep rest (c :: acc)

def splitChar (sep : Char) (s : String) : List String :=
  splitCharAux sep s.data []

/-- `s.split(sep)[0]`: the part of `s` before the first occurrence of `sep`. -/
def takeUntilChar (sep : Char) : List Char → List Char
  | [] => []
  | c :: rest => if c = sep then [] else c :: takeUntilChar sep rest

def listLeads : List Char → List Char → Bool
  | _, [] => true
  | [], _ :: _ => false
  | c :: cs, d :: ds => c = d && listLeads cs ds

/-- `s.startsWith (p)` on JS strings. -/
def strLeads (s p : String) : Bool := listLeads s.data p.data

/-- `Math.round(ms / 1000)` for an integer count of milliseconds.
JS rounds half toward positive infinity: `round(x) = ⌊x + 1/2⌋`, and for
`x = ms/1000` this equals `(2*ms + 1000) / 2000` in floor division; the
integer form is used so the definition evaluates inside the kernel, and
`jsRound1000_eq_round` certifies it against the real formula. -/
def jsRound1000 (ms : Int) : Int := (2 * ms + 1000) / 2000

instance {ε α : Type} [DecidableEq ε] [DecidableEq α] : DecidableEq (Except ε α) := fun a b =>
  match a, b with
  | .error e1, .error e2 =>
    if h : e1 = e2 then .isTrue (by rw [h]) else .isFalse (fun hc => h (by injection hc))
  | .ok x, .ok y =>
    if h : x = y then .isTrue (by rw [h]) else .isFalse (fun hc => h (by injection hc))
  | .error _, .ok _ => .isFalse (fun hc => Except.noConfusion hc)
  | .ok _, .error _ => .isFalse (fun hc => Except.noConfusion hc)

/-- `h.toString().padStart(2, '0')`. -/
def pad2 (h : Nat) : String :=
  if h < 10 then "0" ++ toString h else toString h

/-- The JavaScript `Date` runtime, abstracted.
`parse s` is `new Date(s).getTime()` (`none` models an Invalid Date / NaN);
`toISOString t` is `new Date(t).toISOString()`;
`getHours t` is `new Date(t).getHours()` (the local hour, `0..23` for any
real runtime). -/
structure DateLib where
  parse : String → Option Int
  toISOString : Int → String
  getHours : Int → Nat

/-- `toISOString().split('T')[0]`: the UTC calendar date of a timestamp. -/
def DateLib.toDateString (L : DateLib) (t : Int) : String :=
  String.mk (takeUntilChar 'T' (L.toISOString t).data)

/-! ## Data model (`session-processor.ts` lines 6-48) -/

structure ToolCall where
  id : String
  name : String
  arguments : String
deriving DecidableEq

structure ChatMessage where
  role : String
  content : Option String
  tool_calls : Option (List ToolCall)
  timestamp : Option String
deriving DecidableEq

/-- A parsed session.  `startTime`/`endTime` are `Option` because
`parseSessionFile` never validates them: the TypeScript annotation
`startTime: string` is not enforced at runtime.  The opaque `timeline`
field is never interpreted by the core and is omitted. -/
structure SessionData where
  sessionId : String
  startTime : Option String
  endTime : Option String
  chatMessages : List ChatMessage
deriving DecidableEq

structure SessionMetrics where
  sessionId : String
  startTime : Option String
  endTime : Option String
  duration : Int
  tokens : Nat
  prompts : Nat
  messages : Nat
  toolCalls : Nat
  userMessages : Nat
  assistantMessages : Nat
  toolMessages : Nat
deriving DecidableEq

structure HourlyStats where
  prompts : Nat
  tokens : Nat
  cost : ℚ
  duration : Int
deriving DecidableEq

/-- `DailyStats` from `types.ts`.  The JS objects `commands`, `models` and
`hourlyBreakdown` are modelled as association lists in key-insertion order,
which is how JS enumerates and serializes them. -/
structure DailyStats where
  date : String
  totalPrompts : Nat
  totalTokens : Nat
  totalCost : ℚ
  averagePromptTokens : ℚ
  averageCompletionTokens : ℚ
  totalDuration : Int
  uniqueSessions : Nat
  commands : List (String × Nat)
  models : List (String × Nat)
  hourlyBreakdown : List (String × HourlyStats)
deriving DecidableEq

/-! ## Session parser (`parseSessionFile`, lines 115-160) -/

inductive ParseError where
  | emptyFile
  | invalidJson
  | invalidJsonObject
  | missingSessionId
  | missingChatMessages
  | invalidMessageRole
deriving DecidableEq

def decodeToolCall (j : Json) : ToolCall :=
  { id := (Json.asStr (j.getField "id")).getD ""
    name := (Json.asStr ((j.getField "function").bind (·.getField "name") |>.orElse fun _ => none)).getD ""
    arguments := (Json.asStr ((j.getField "function").bind (·.getField "arguments") |>.orElse fun _ => none)).getD "" }

/-- Decodes one chat message.  Only the shapes the core actually consumes are
decoded: a non-string `content` or a non-array `tool_calls` (which the parser
never validates and which would make the JS token estimate NaN) is decoded to
`none`; no claim in scope exercises that corner. -/
def decodeMessage (j : Json) : ChatMessage :=
  { role := (Json.asStr (j.getField "role")).getD ""
    content := Json.asStr (j.getField "content")
    tool_calls :=
      match j.getField "tool_calls" with
      | some (.arr xs) => some (xs.map decodeToolCall)
      | _ => none
    timestamp := Json.asStr (j.getField "timestamp") }

def decodeSession (j : Json) : SessionData :=
  { sessionId := (Json.asStr (j.getField "sessionId")).getD ""
    startTime := Json.asStr (j.getField "startTime")
    endTime := Json.asStr (j.getField "endTime")
    chatMessages :=
      match j.getField "chatMessages" with
      | some (.arr xs) => xs.map decodeMessage
      | _ => [] }

/-- `!data || typeof data !== 'object'` (line 129): `JSON.parse` can never
yield `undefined`; `null` is falsy; numbers, strings and booleans fail the
`typeof` test.  Both objects and arrays have `typeof === 'object'` and pass. -/
def isObjectLike : Json → Bool
  | .obj _ => true
  | .arr _ => true
  | _ => false

/-- `!data.sessionId || typeof data.sessionId !== 'string'` (line 133):
the empty string is a string but is falsy in JS, so it is rejected by the
first disjunct. -/
def sessionIdOk (data : Json) : Bool :=
  match Json.asStr (data.getField "sessionId") with
  | some s => s ≠ ""
  | none => false

/-- `!data.chatMessages || !Array.isArray(data.chatMessages)` (line 137):
a JS array, even the empty one, is truthy, so any array passes. -/
def chatMessagesArr (data : Json) : Option (List Json) :=
  match data.getField "chatMessages" with
  | some (.arr xs) => some xs
  | _ => none

/-- `!msg.role || !['user','assistant','tool','system'].includes(msg.role)`
(line 143): only a string drawn from the enumeration passes (every listed
string is truthy); a non-object element has no `role` and fails too. -/
def roleOk (j : Json) : Bool :=
  match Json.asStr (j.getField "role") with
  | some r => r ∈ ["user", "assistant", "tool", "system"]
  | none => false

/-- `parseSessionFile` (lines 115-160), with file access abstracted: the
argument is the raw file content and `jsonParse` abstracts `JSON.parse`
(`none` models a thrown SyntaxError). -/
def parseSessionFile (jsonParse : String → Option Json) (content : String) :
    Except ParseError SessionData :=
  if isBlank content then .error .emptyFile
  else
    match jsonParse content with
    | none => .error .invalidJson
    | some data =>
      if !isObjectLike data then .error .invalidJsonObject
      else if !sessionIdOk data then .error .missingSessionId
      else
        match chatMessagesArr data with
        | none => .error .missingChatMessages
        | some msgs =>
          if msgs.all roleOk then .ok (decodeSession data)
          else .error .invalidMessageRole

/-! ## Metrics estimator (lines 191-269) -/

/-- `estimateTokens` (lines 218-236): a `for` loop accumulating
`Math.ceil(msg.content.length / 4)` when `msg.content` is truthy and
`msg.tool_calls.length * 10` when `tool_calls` is present (a JS array is
always truthy; an absent `chatMessages` would yield 0, as does folding
over the empty list). -/
def estimateTokens (s : SessionData) : Nat :=
  s.chatMessages.foldl
    (fun acc msg =>
      let acc := if jsTruthyStr msg.content
                 then acc + ((msg.content.getD "").length + 3) / 4
                 else acc
      match msg.tool_calls with
      | some tcs => acc + tcs.length * 10
      | none => acc)
    0

def countMessages (s : SessionData) : Nat := s.chatMessages.length

def countUserMessages (s : SessionData) : Nat :=
  (s.chatMessages.filter (fun m => m.role = "user")).length

def countAssistantMessages (s : SessionData) : Nat :=
  (s.chatMessages.filter (fun m => m.role = "assistant")).length

def countToolMessages (s : SessionData) : Nat :=
  (s.chatMessages.filter (fun m => m.role = "tool")).length

def countToolCalls (s : SessionData) : Nat :=
  s.chatMessages.foldl
    (fun count msg =>
      match msg.tool_calls with
      | some tcs => count + tcs.length
      | none => count)
    0

/-- Duration in seconds (line 192-195):
`startTime = sessionData.startTime ? new Date(...) : null`,
`endTime = sessionData.endTime ? new Date(...) : new Date()` (i.e. `now`),
`duration = startTime ? Math.round((end - start) / 1000) : 0`.
A `startTime`/`endTime` string that fails to parse yields NaN in JS; that
corner is unreachable through the date-filtered pipeline for `startTime`
(the filter requires a valid parse) and is modelled as 0 here — no claim
in scope depends on it. -/
def sessionDuration (L : DateLib) (now : Int) (s : SessionData) : Int :=
  if jsTruthyStr s.startTime then
    match L.parse (s.startTime.getD "") with
    | some st =>
      let et := if jsTruthyStr s.endTime then L.parse (s.endTime.getD "") else some now
      match et with
      | some e => jsRound1000 (e - st)
      | none => 0
    | none => 0
  else 0

/-- `calculateSessionMetrics` (lines 191-216). -/
def calculateSessionMetrics (L : DateLib) (now : Int) (s : SessionData) : SessionMetrics :=
  { sessionId := s.sessionId
    startTime := s.startTime
    endTime := s.endTime
    duration := sessionDuration L now s
    tokens := estimateTokens s
    prompts := countUserMessages s
    messages := countMessages s
    toolCalls := countToolCalls s
    userMessages := countUserMessages s
    assistantMessages := countAssistantMessages s
    toolMessages := countToolMessages s }

/-! ## Date filter (`isSessionFromTargetDate`, lines 162-189) -/

def isSessionFromTargetDate (L : DateLib) (now : Int) (s : SessionData)
    (targetDate : String) : Bool :=
  if !jsTruthyStr s.startTime then false
  else
    match L.parse (s.startTime.getD "") with
    | none => false
    | some t =>
      if t > now then false
      else L.toDateString t = targetDate

/-! ## Daily aggregator (lines 271-364) -/

/-- `calculateCost` (lines 302-306): `tokens * 0.000001`. -/
def calculateCost (tokens : Nat) : ℚ := (tokens : ℚ) * (1 / 1000000)

def zeroHourly : HourlyStats := ⟨0, 0, 0, 0⟩

/-- The zero-initialized 24-bucket map built by the `for (hour = 0..23)`
loops at lines 312-320 and 341-349, in insertion order. -/
def initHourly : List (String × HourlyStats) :=
  (List.range 24).map (fun h => (pad2 h, zeroHourly))

/-- In-place update of one key of a JS object modelled as an assoc list;
a missing key leaves the list unchanged (that case would be a TypeError in
JS and is unreachable here: `getHours` yields `0..23` on every real runtime
and all 24 buckets are pre-initialized). -/
def updateAssoc (k : String) (f : HourlyStats → HourlyStats) :
    List (String × HourlyStats) → List (String × HourlyStats)
  | [] => []
  | (k2, v) :: rest =>
    if k2 = k then (k2, f v) :: rest else (k2, v) :: updateAssoc k f rest

/-- The four `+=` statements at lines 328-331. -/
def addMetricsToHour (m : SessionMetrics) (h : HourlyStats) : HourlyStats :=
  { prompts := h.prompts + m.prompts
    tokens := h.tokens + m.tokens
    cost := h.cost + calculateCost m.tokens
    duration := h.duration + m.duration }

/-- One iteration of the loop at lines 323-333: guarded by the truthiness of
`metrics.startTime`; the bucket is `new Date(metrics.startTime).getHours()`
zero-padded.  An unparseable `startTime` would make the bucket key `"NaN"`
and crash in JS; unreachable through the pipeline, modelled as a no-op. -/
def hourlyStep (L : DateLib) (acc : List (String × HourlyStats))
    (m : SessionMetrics) : List (String × HourlyStats) :=
  if jsTruthyStr m.startTime then
    match L.parse (m.startTime.getD "") with
    | some t => updateAssoc (pad2 (L.getHours t)) (addMetricsToHour m) acc
    | none => acc
  else acc

/-- `calculateHourlyBreakdown` (lines 308-336). -/
def calculateHourlyBreakdown (L : DateLib) (ms : List SessionMetrics) :
    List (String × HourlyStats) :=
  ms.foldl (hourlyStep L) initHourly

/-- `createEmptyStats` (lines 338-364). -/
def createEmptyStats (date : String) : DailyStats :=
  { date := date
    totalPrompts := 0
    totalTokens := 0
    totalCost := 0
    averagePromptTokens := 0
    averageCompletionTokens := 0
    totalDuration := 0
    uniqueSessions := 0
    commands := []
    models := []
    hourlyBreakdown := initHourly }

/-- `aggregateDailyStats` (lines 271-300).  The source also computes a
`totalToolCalls` reduction that is dead code (it never reaches the returned
record); it is omitted. -/
def aggregateDailyStats (L : DateLib) (date : String)
    (sessionMetrics : List SessionMetrics) : DailyStats :=
  if sessionMetrics.isEmpty then createEmptyStats date
  else
    let totalTokens := sessionMetrics.foldl (fun sum s => sum + s.tokens) (0 : Nat)
    let totalPrompts := sessionMetrics.foldl (fun sum s => sum + s.prompts) (0 : Nat)
    let totalDuration := sessionMetrics.foldl (fun sum s => sum + s.duration) (0 : Int)
    let totalCost := calculateCost totalTokens
    let averagePromptTokens : ℚ :=
      if totalPrompts > 0 then (totalTokens : ℚ) / (totalPrompts : ℚ) else 0
    let averageCompletionTokens : ℚ :=
      if totalPrompts > 0 then (totalTokens : ℚ) - averagePromptTokens else 0
    { date := date
      totalPrompts := totalPrompts
      totalTokens := totalTokens
      totalCost := totalCost
      averagePromptTokens := averagePromptTokens
      averageCompletionTokens := averageCompletionTokens
      totalDuration := totalDuration
      uniqueSessions := sessionMetrics.length
      commands := []
      models := [("github-copilot", totalPrompts)]
      hourlyBreakdown := calculateHourlyBreakdown L sessionMetrics }

/-- `getUsageByDate` (lines 62-85), with the directory listing abstracted:
`files` is the list of candidate file contents in scan order.  Each file is
parsed; a per-file parse failure is caught at line 74, warned about and
skipped (`continue`); matching sessions contribute their metrics in order. -/
def getUsageByDate (L : DateLib) (jsonParse : String → Option Json)
    (now : Int) (targetDate : String) (files : List String) : DailyStats :=
  let sessionMetrics := files.filterMap (fun content =>
    match parseSessionFile jsonParse content with
    | .error _ => none
    | .ok sessionData =>
      if isSessionFromTargetDate L now sessionData targetDate
      then some (calculateSessionMetrics L now sessionData)
      else none)
  aggregateDailyStats L targetDate sessionMetrics

/-! ## Usage log store (`logger.ts`) -/

/-- One log line as parsed by `JSON.parse`, the `CopilotUsage` shape of
`types.ts` with the timestamp still in its serialized string form. -/
structure CopilotUsageRaw where
  timestamp : String
  model : String
  promptTokens : Nat
  completionTokens : Nat
  totalTokens : Nat
  cost : ℚ
  sessionId : String
  command : String
  duration : Int
deriving DecidableEq

/-- A usage entry after `{...entry, timestamp: new Date(entry.timestamp)}`
(line 30-33): `none` in `timestamp` models an Invalid Date. -/
structure CopilotUsage where
  timestamp : Option Int
  model : String
  promptTokens : Nat
  completionTokens : Nat
  totalTokens : Nat
  cost : ℚ
  sessionId : String
  command : String
  duration : Int
deriving DecidableEq

def toUsage (L : DateLib) (r : CopilotUsageRaw) : CopilotUsage :=
  { timestamp := L.parse r.timestamp
    model := r.model
    promptTokens := r.promptTokens
    completionTokens := r.completionTokens
    totalTokens := r.totalTokens
    cost := r.cost
    sessionId := r.sessionId
    command := r.command
    duration := r.duration }

/-- The filter at lines 38-41:
`entry !== null && entry.timestamp.toISOString().startsWith(date)`.
A `null` entry (a line whose `JSON.parse` threw) is dropped by the first
conjunct; `toISOString()` on an Invalid Date throws a RangeError which
escapes `getUsageForDate` (the per-line `try` at lines 28-36 only covers
`JSON.parse` and the object construction, not the filter predicate). -/
def filterValidUsage (L : DateLib) (date : String) :
    List (Option CopilotUsage) → Except String (List CopilotUsage)
  | [] => .ok []
  | none :: rest => filterValidUsage L date rest
  | some u :: rest =>
    match u.timestamp with
    | none => .error "RangeError: Invalid time value"
    | some t =>
      (filterValidUsage L date rest).map (fun tail =>
        if strLeads (L.toISOString t) date then u :: tail else tail)

/-- `getUsageForDate` (lines 21-48), with the file read abstracted:
`logFile = none` models ENOENT (the file does not exist; result `[]`),
`logFile = some logData` is the file content.  `parseLine` abstracts
`JSON.parse` plus the field view of one line (`none` = the line threw). -/
def getUsageForDate (L : DateLib) (parseLine : String → Option CopilotUsageRaw)
    (logFile : Option String) (date : String) : Except String (List CopilotUsage) :=
  match logFile with
  | none => .ok []
  | some logData =>
    let lines := (splitChar '\n' logData).filter (fun line => !isBlank line)
    let entries := lines.map (fun line => (parseLine line).map (toUsage L))
    filterValidUsage L date entries

/-- `commands[k] = (commands[k] || 0) + 1` on a JS object modelled as an
assoc list: update in place if the key exists, else append. -/
def bumpCount (k : String) : List (String × Nat) → List (String × Nat)
  | [] => [(k, 1)]
  | (k2, v) :: rest =>
    if k2 = k then (k2, v + 1) :: rest else (k2, v) :: bumpCount k rest

def lookupHour (k : String) : List (String × HourlyStats) → Option HourlyStats
  | [] => none
  | (k2, v) :: rest => if k2 = k then some v else lookupHour k rest

/-- Lines 92-99: `if (!hourlyBreakdown[hour]) hourlyBreakdown[hour] = {...}`
followed by the four increments.  Unlike the session path, buckets are
created lazily, only for hours that actually occur. -/
def bumpHourly (k : String) (u : CopilotUsage) (acc : List (String × HourlyStats)) :
    List (String × HourlyStats) :=
  let acc := if (lookupHour k acc).isNone then acc ++ [(k, zeroHourly)] else acc
  updateAssoc k
    (fun h =>
      { prompts := h.prompts + 1
        tokens := h.tokens + u.totalTokens
        cost := h.cost + u.cost
        duration := h.duration + u.duration })
    acc

/-- The hourly part of the `forEach` in `getDailyStats`:
`entry.timestamp.getHours()` — every entry reaching this point has a valid
timestamp (otherwise `getUsageForDate` already threw), so the `none` branch
is unreachable and modelled as a no-op. -/
def loggerHourStep (L : DateLib) (acc : List (String × HourlyStats))
    (u : CopilotUsage) : List (String × HourlyStats) :=
  match u.timestamp with
  | some t => bumpHourly (pad2 (L.getHours t)) u acc
  | none => acc

/-- The `usage.length === 0` early return of `getDailyStats` (lines 53-67).
Note `hourlyBreakdown` is the EMPTY object here, not 24 zero buckets. -/
def emptyLoggerStats (date : String) : DailyStats :=
  { date := date
    totalPrompts := 0
    totalTokens := 0
    totalCost := 0
    averagePromptTokens := 0
    averageCompletionTokens := 0
    totalDuration := 0
    uniqueSessions := 0
    commands := []
    models := []
    hourlyBreakdown := [] }

/-- `getDailyStats` (lines 50-115).  The `Set` of session ids is modelled by
deduplicating the id list (only its size is used).  An exception from
`getUsageForDate` propagates. -/
def getDailyStats (L : DateLib) (parseLine : String → Option CopilotUsageRaw)
    (logFile : Option String) (date : String) : Except String DailyStats :=
  (getUsageForDate L parseLine logFile date).map (fun usage =>
    if usage.isEmpty then emptyLoggerStats date
    else
      let commands := usage.foldl (fun acc u => bumpCount u.command acc) []
      let models := usage.foldl (fun acc u => bumpCount u.model acc) []
      let totalPromptTokens := usage.foldl (fun sum u => sum + u.promptTokens) (0 : Nat)
      let totalCompletionTokens := usage.foldl (fun sum u => sum + u.completionTokens) (0 : Nat)
      let hourlyBreakdown := usage.foldl (loggerHourStep L) []
      { date := date
        totalPrompts := usage.length
        totalTokens := usage.foldl (fun sum u => sum + u.totalTokens) (0 : Nat)
        totalCost := usage.foldl (fun sum u => sum + u.cost) (0 : ℚ)
        averagePromptTokens := (totalPromptTokens : ℚ) / (usage.length : ℚ)
        averageCompletionTokens := (totalCompletionTokens : ℚ) / (usage.length : ℚ)
        totalDuration := usage.foldl (fun sum u => sum + u.duration) (0 : Int)
        uniqueSessions := (usage.map (fun u => u.sessionId)).dedup.length
        commands := commands
        models := models
        hourlyBreakdown := hourlyBreakdown })

/-! ## Concrete instantiations used by scenarios, witnesses and counterexamples.
The `DateLib` instances are small lookup tables agreeing with the real JS
`Date` runtime (UTC timezone) on the timestamps they are applied to. -/

/-- The spec scenario session: `chatMessages = [{role:"user", content:"abcd"},
{role:"assistant", content:"abcdefgh"}]`, no tool calls. -/
def scenarioSession : SessionData :=
  { sessionId := "s1"
    startTime := some "2024-01-15T10:00:00Z"
    endTime := none
    chatMessages :=
      [ { role := "user", content := some "abcd", tool_calls := none, timestamp := none }
      , { role := "assistant", content := some "abcdefgh", tool_calls := none, timestamp := none } ] }

/-- The scenario session in its JSON file form. -/
def demoJson : Json := .obj
  [ ("sessionId", .str "s1")
  , ("startTime", .str "2024-01-15T10:00:00Z")
  , ("chatMessages", .arr
      [ .obj [("role", .str "user"), ("content", .str "abcd")]
      , .obj [("role", .str "assistant"), ("content", .str "abcdefgh")] ]) ]

/-- A `JSON.parse` table: the file content "FILE_A" holds the scenario
session; everything else is malformed JSON. -/
def demoParse : String → Option Json :=
  fun s => if s = "FILE_A" then some demoJson else none

/-- A `Date` runtime table for the single timestamp the demos use
(1705312800000 ms = 2024-01-15T10:00:00Z, host timezone UTC). -/
def demoLib : DateLib :=
  { parse := fun s => if s = "2024-01-15T10:00:00Z" then some 1705312800000 else none
    toISOString := fun t => if t = 1705312800000 then "2024-01-15T10:00:00.000Z" else "INVALID"
    getHours := fun t => if t = 1705312800000 then 10 else 0 }

/-- The metrics of the scenario session, evaluated at
`now = 1705400000000` (2024-01-16T10:13:20Z): duration
`round((1705400000000 - 1705312800000) / 1000) = 87200` s. -/
def demoMetric : SessionMetrics :=
  { sessionId := "s1", startTime := some "2024-01-15T10:00:00Z", endTime := none
    duration := 87200, tokens := 3, prompts := 1, messages := 2, toolCalls := 0
    userMessages := 1, assistantMessages := 1, toolMessages := 0 }

/-- A session with a lone assistant message of 20 characters: 5 estimated
tokens and zero prompts (used against the average-completion formula). -/
def assistantOnlyJson : Json := .obj
  [ ("sessionId", .str "s2")
  , ("startTime", .str "2024-01-15T10:00:00Z")
  , ("chatMessages", .arr [ .obj [("role", .str "assistant"), ("content", .str "aaaaaaaaaaaaaaaaaaaa")] ]) ]

def assistantOnlyParse : String → Option Json :=
  fun s => if s = "FILE_B" then some assistantOnlyJson else none

def assistantOnlyMetric : SessionMetrics :=
  { sessionId := "s2", startTime := some "2024-01-15T10:00:00Z", endTime := none
    duration := 87200, tokens := 5, prompts := 0, messages := 1, toolCalls := 0
    userMessages := 0, assistantMessages := 1, toolMessages := 0 }

/-- A session whose `endTime` is 300 ms before its `startTime`. -/
def backwardsSession : SessionData :=
  { sessionId := "s3"
    startTime := some "T-START"
    endTime := some "T-END"
    chatMessages := [] }

/-- `Date` table for `backwardsSession` and `bigGapSession`: start at
500 ms, ends at 200 ms and -600 ms relative to the epoch. -/
def backwardsLib : DateLib :=
  { parse := fun s => if s = "T-START" then some 500
                      else if s = "T-END" then some 200
                      else if s = "T-END2" then some (-600) else none
    toISOString := fun t => if t = 500 then "1970-01-01T00:00:00.500Z"
                            else if t = 200 then "1970-01-01T00:00:00.200Z"
                            else if t = -600 then "1969-12-31T23:59:59.400Z" else "INVALID"
    getHours := fun _ => 0 }

/-- A session whose `endTime` is 1100 ms before its `startTime`. -/
def bigGapSession : SessionData :=
  { sessionId := "s4"
    startTime := some "T-START"
    endTime := some "T-END2"
    chatMessages := [] }

/-- Usage-log fixtures: two events on consecutive days, and one event whose
timestamp string does not parse. -/
def rawJan15 : CopilotUsageRaw :=
  { timestamp := "2024-01-15T10:00:00Z", model := "gpt-4", promptTokens := 10
    completionTokens := 20, totalTokens := 30, cost := 3 / 100000, sessionId := "sessA"
    command := "suggest", duration := 1200 }

def rawJan16 : CopilotUsageRaw :=
  { timestamp := "2024-01-16T09:00:00Z", model := "gpt-4", promptTokens := 5
    completionTokens := 5, totalTokens := 10, cost := 1 / 100000, sessionId := "sessB"
    command := "explain", duration := 800 }

def rawBadTs : CopilotUsageRaw :=
  { timestamp := "not-a-date", model := "gpt-4", promptTokens := 1
    completionTokens := 1, totalTokens := 2, cost := 0, sessionId := "sessC"
    command := "suggest", duration := 10 }

/-- `JSON.parse` table for log lines: "L-15" and "L-16" are the two valid
events, "L-BAD-TS" is valid JSON with an unparseable timestamp, anything
else fails to parse. -/
def demoLogParse : String → Option CopilotUsageRaw := fun s =>
  if s = "L-15" then some rawJan15
  else if s = "L-16" then some rawJan16
  else if s = "L-BAD-TS" then some rawBadTs
  else none

/-- `Date` table for the log fixtures (1705312800000 ms =
2024-01-15T10:00:00Z, 1705395600000 ms = 2024-01-16T09:00:00Z). -/
def demoLogLib : DateLib :=
  { parse := fun s =>
      if s = "2024-01-15T10:00:00Z" then some 1705312800000
      else if s = "2024-01-16T09:00:00Z" then some 1705395600000
      else none
    toISOString := fun t =>
      if t = 1705312800000 then "2024-01-15T10:00:00.000Z"
      else if t = 1705395600000 then "2024-01-16T09:00:00.000Z"
      else "INVALID"
    getHours := fun t =>
      if t = 1705312800000 then 10
      else if t = 1705395600000 then 9
      else 0 }

/-- The claim-side token formula for one message: `ceil(length(content)/4)`
when `content` is present plus `10 * count(toolCalls)` when present. -/
def specMessageTokens (m : ChatMessage) : Nat :=
  (match m.content with
   | some c => ⌈(c.length : ℚ) / 4⌉₊
   | none => 0) +
  (match m.tool_calls with
   | some tcs => 10 * tcs.length
   | none => 0)

/-- The hour keys "00".."23" in order. -/
def hours24 : List String := (List.range 24).map pad2

/-! ## Helper lemmas -/

theorem jsRound1000_eq_round (ms : Int) : jsRound1000 ms = ⌊(ms : ℚ) / 1000 + 1 / 2⌋ := by
  rw [jsRound1000]
  rw [show ((ms : ℚ) / 1000 + 1 / 2) = ((2 * ms + 1000 : ℤ) : ℚ) / ((2000 : ℕ) : ℚ) by
    push_cast; ring]
  rw [Rat.floor_intCast_div_natCast]
  norm_num

lemma ceil_div_four (n : ℕ) : ⌈(n : ℚ) / 4⌉₊ = (n + 3) / 4 := by
  apply le_antisymm
  · rw [Nat.ceil_le, div_le_iff₀ (by norm_num : (0:ℚ) < 4)]
    have h : n ≤ ((n + 3) / 4) * 4 := by omega
    exact_mod_cast h
  · rcases Nat.eq_zero_or_pos ((n + 3) / 4) with h | h
    · simp [h]
    · have h2 : (n + 3) / 4 - 1 < ⌈(n : ℚ) / 4⌉₊ := by
        apply Nat.lt_ceil.2
        rw [lt_div_iff₀ (by norm_num : (0:ℚ) < 4)]
        have h3 : ((n + 3) / 4 - 1) * 4 < n := by omega
        exact_mod_cast h3
      omega

/-- One step of the `estimateTokens` loop adds the claim-side per-message
token count. -/
lemma estimateStep_eq (acc : Nat) (msg : ChatMessage) :
    (let acc := if jsTruthyStr msg.content
                then acc + ((msg.content.getD "").length + 3) / 4
                else acc
     match msg.tool_calls with
     | some tcs => acc + tcs.length * 10
     | none => acc) = acc + specMessageTokens msg := by
  rcases msg with ⟨role, content, tool_calls, ts⟩
  rcases content with _ | c
  · rcases tool_calls with _ | tcs <;> simp [specMessageTokens, jsTruthyStr] <;> ring
  · rcases tool_calls with _ | tcs <;>
      by_cases hc : c = "" <;>
      simp [specMessageTokens, jsTruthyStr, hc, ceil_div_four] <;>
      ring

lemma estimateTokens_foldl (msgs : List ChatMessage) (acc : Nat) :
    msgs.foldl
      (fun acc msg =>
        let acc := if jsTruthyStr msg.content
                   then acc + ((msg.content.getD "").length + 3) / 4
                   else acc
        match msg.tool_calls with
        | some tcs => acc + tcs.length * 10
        | none => acc)
      acc = acc + (msgs.map specMessageTokens).sum := by
  induction msgs generalizing acc with
  | nil => simp
  | cons m rest ih =>
    rw [List.foldl_cons, List.map_cons, List.sum_cons, ih, estimateStep_eq]
    ring

/-- C1: the estimated token count is the claim-side sum, and the spec
scenario yields 3 tokens and 1 prompt. -/
theorem estimateTokens_matches_spec :
    (∀ s : SessionData, estimateTokens s = (s.chatMessages.map specMessageTokens).sum)
    ∧ estimateTokens scenarioSession = 3 ∧ countUserMessages scenarioSession = 1 := by
  refine ⟨fun s => ?_, by decide, by decide⟩
  rw [estimateTokens, estimateTokens_foldl]
  simp

/-- C3 counterexample: a matching session with 5 estimated tokens and zero
prompts.  The code yields `averageCompletionTokens = 0` while the claim's
formula `totalTokens - averagePromptTokens` (with `averagePromptTokens = 0`
when there are no prompts) yields 5. -/
theorem avgCompletionTokens_formula_cex :
    (getUsageByDate demoLib assistantOnlyParse 1705400000000 "2024-01-15" ["FILE_B"]).averageCompletionTokens = 0
    ∧ ((getUsageByDate demoLib assistantOnlyParse 1705400000000 "2024-01-15" ["FILE_B"]).totalTokens : ℚ)
        - (getUsageByDate demoLib assistantOnlyParse 1705400000000 "2024-01-15" ["FILE_B"]).averagePromptTokens = 5
    ∧ (0 : ℚ) ≠ 5 := by
  have hred : getUsageByDate demoLib assistantOnlyParse 1705400000000 "2024-01-15" ["FILE_B"]
      = aggregateDailyStats demoLib "2024-01-15" [assistantOnlyMetric] := rfl
  refine ⟨?_, ?_, by norm_num⟩
  · rw [hred]
    simp [aggregateDailyStats, assistantOnlyMetric]
  · rw [hred]
    simp [aggregateDailyStats, assistantOnlyMetric]

/-- C3 amended: `averageCompletionTokens` equals
`totalTokens - averagePromptTokens` when there is at least one prompt, and
is 0 when there are no prompts — even when `totalTokens > 0`. -/
theorem avgCompletionTokens_amended (L : DateLib) (d : String) (ms : List SessionMetrics) :
    (aggregateDailyStats L d ms).averageCompletionTokens =
      if (aggregateDailyStats L d ms).totalPrompts > 0
      then ((aggregateDailyStats L d ms).totalTokens : ℚ) - (aggregateDailyStats L d ms).averagePromptTokens
      else 0 := by
  rw [aggregateDailyStats]
  by_cases h : ms.isEmpty <;> simp [h, createEmptyStats]

/-- C4: a file whose parse fails contributes nothing — the aggregation over
`l1 ++ bad :: l2` equals the aggregation over `l1 ++ l2`, for every target
date and every position of the bad file; the scan is never aborted. -/
theorem corrupt_file_skipped (L : DateLib) (jsonParse : String → Option Json)
    (now : Int) (targetDate : String) (l1 l2 : List String) (bad : String)
    (e : ParseError) (h : parseSessionFile jsonParse bad = .error e) :
    getUsageByDate L jsonParse now targetDate (l1 ++ bad :: l2)
      = getUsageByDate L jsonParse now targetDate (l1 ++ l2) := by
  rw [getUsageByDate, getUsageByDate]
  congr 1
  rw [List.filterMap_append, List.filterMap_append, List.filterMap_cons, h]

/-- C4 witness: one malformed file ("garbage" is not JSON) among one valid
file leaves the daily aggregation unchanged. -/
theorem corrupt_file_skipped_witness :
    parseSessionFile demoParse "garbage" = .error .invalidJson
    ∧ getUsageByDate demoLib demoParse 1705400000000 "2024-01-15" (["FILE_A"] ++ "garbage" :: [])
        = getUsageByDate demoLib demoParse 1705400000000 "2024-01-15" (["FILE_A"] ++ []) :=
  ⟨by decide,
   corrupt_file_skipped demoLib demoParse 1705400000000 "2024-01-15" ["FILE_A"] []
     "garbage" .invalidJson (by decide)⟩

/-- C5: `isSessionFromTargetDate` is true iff `startTime` is truthy, parses
to a valid timestamp that is not strictly in the future, and its UTC
calendar date equals the target exactly; and a session whose timestamp is
in the future is excluded from every target date. -/
theorem date_filter_characterization (L : DateLib) (now : Int) (s : SessionData)
    (targetDate : String) :
    (isSessionFromTargetDate L now s targetDate = true ↔
      jsTruthyStr s.startTime = true
      ∧ ∃ t, L.parse (s.startTime.getD "") = some t
          ∧ ¬ now < t
          ∧ L.toDateString t = targetDate)
    ∧ (∀ t, L.parse (s.startTime.getD "") = some t → now < t →
        isSessionFromTargetDate L now s targetDate = false) := by
  constructor
  · rw [isSessionFromTargetDate]
    rcases hst : jsTruthyStr s.startTime with _ | _
    · simp [hst]
    · simp only [hst, Bool.not_true, Bool.false_eq_true, if_false]
      rcases hp : L.parse (s.startTime.getD "") with _ | t
      · simp
      · by_cases hf : now < t
        · simp [hf, gt_iff_lt]
        · simp [hf, gt_iff_lt]
          exact fun _ => le_of_not_lt hf
  · intro t hp hf
    rw [isSessionFromTargetDate]
    rcases hst : jsTruthyStr s.startTime with _ | _
    · simp
    · simp only [Bool.not_true, Bool.false_eq_true, if_false, hp]
      simp [gt_iff_lt, hf]

/-- C5 witness: the scenario session's timestamp (2024-01-15T10:00:00Z)
is in the future relative to `now = 0`, and the session is excluded. -/
theorem date_filter_characterization_witness :
    demoLib.parse "2024-01-15T10:00:00Z" = some 1705312800000
    ∧ (0 : Int) < 1705312800000
    ∧ isSessionFromTargetDate demoLib 0 scenarioSession "2024-01-15" = false :=
  ⟨by decide, by decide,
   (date_filter_characterization demoLib 0 scenarioSession "2024-01-15").2
     1705312800000 (by decide) (by decide)⟩

lemma sessionIdOk_iff (j : Json) :
    sessionIdOk j = true ↔ ∃ sid, j.getField "sessionId" = some (.str sid) ∧ sid ≠ "" := by
  rcases h : j.getField "sessionId" with _ | v
  · simp [sessionIdOk, Json.asStr, h]
  · cases v <;> simp [sessionIdOk, Json.asStr, h]

lemma roleOk_iff (m : Json) :
    roleOk m = true ↔ ∃ r, m.getField "role" = some (.str r)
      ∧ r ∈ ["user", "assistant", "tool", "system"] := by
  rcases h : m.getField "role" with _ | v
  · simp [roleOk, Json.asStr, h]
  · cases v <;> simp [roleOk, Json.asStr, h]

lemma chatMessagesArr_iff (j : Json) (msgs : List Json) :
    chatMessagesArr j = some msgs ↔ j.getField "chatMessages" = some (.arr msgs) := by
  rcases h : j.getField "chatMessages" with _ | v
  · simp [chatMessagesArr, h]
  · cases v <;> simp [chatMessagesArr, h]

/-- Structured characterization of a successful parse. -/
lemma parseSessionFile_ok_iff (jsonParse : String → Option Json) (content : String)
    (s : SessionData) :
    parseSessionFile jsonParse content = .ok s ↔
      isBlank content = false
      ∧ ∃ j, jsonParse content = some j
          ∧ isObjectLike j = true
          ∧ sessionIdOk j = true
          ∧ ∃ msgs, chatMessagesArr j = some msgs
              ∧ msgs.all roleOk = true
              ∧ s = decodeSession j := by
  rw [parseSessionFile]
  rcases hb : isBlank content with _ | _
  · rcases hj : jsonParse content with _ | j
    · simp
    · rcases ho : isObjectLike j with _ | _
      · simp [ho]
      · rcases hsid : sessionIdOk j with _ | _
        · simp [ho, hsid]
        · rcases hcm : chatMessagesArr j with _ | msgs
          · simp [ho, hsid, hcm]
          · rcases hall : msgs.all roleOk with _ | _
            · have hall2 : ¬ (∀ x ∈ msgs, roleOk x = true) := by
                rw [← List.all_eq_true]
                simp [hall]
              simp [ho, hsid, hcm, hall2]
            · have hall2 : ∀ x ∈ msgs, roleOk x = true := List.all_eq_true.mp hall
              simp [ho, hsid, hcm, hall2]
              rw [if_pos hall2]
              constructor
              · intro h
                injection h with h2
                exact ⟨hall2, h2.symm⟩
              · rintro ⟨_, rfl⟩
                rfl
  · simp


lemma getField_some_isObj {j : Json} {k : String} {v : Json}
    (h : j.getField k = some v) : isObjectLike j = true := by
  cases j <;> simp [Json.getField, isObjectLike] at h ⊢

/-- A session file whose `sessionId` is present and IS a string — the empty
string — with a well-formed empty `chatMessages` array. -/
def emptyIdJson : Json := .obj [("sessionId", .str ""), ("chatMessages", .arr [])]

def emptyIdParse : String → Option Json := fun s =>
  if s = "FILE_E" then some emptyIdJson else none

/-- C7 counterexample: the top-level value is an object, `sessionId` is
present and a string, `chatMessages` is an array and there are no messages
with bad roles — every failure condition the claim lists is absent — yet
the parser fails, because the empty string is falsy in JS. -/
theorem session_parser_empty_sessionId_cex :
    emptyIdParse "FILE_E" = some emptyIdJson
    ∧ emptyIdJson.getField "sessionId" = some (.str "")
    ∧ emptyIdJson.getField "chatMessages" = some (.arr [])
    ∧ parseSessionFile emptyIdParse "FILE_E" = .error .missingSessionId := by
  refine ⟨rfl, rfl, rfl, by decide⟩

/-- C7 amended: the parser fails on whitespace-only content and on
malformed JSON; it fails with a schema violation exactly when `sessionId`
is missing, not a string, or the EMPTY string (JS falsiness), when
`chatMessages` is missing or not an array, or when some message's role
is missing or outside {user, assistant, tool, system}; on success it
returns the decoded structure of the parsed JSON unchanged. -/
theorem session_parser_success_iff (jsonParse : String → Option Json) (content : String) :
    ((∃ s, parseSessionFile jsonParse content = .ok s) ↔
      isBlank content = false
      ∧ ∃ j, jsonParse content = some j
          ∧ (∃ sid, j.getField "sessionId" = some (.str sid) ∧ sid ≠ "")
          ∧ ∃ msgs, j.getField "chatMessages" = some (.arr msgs)
              ∧ ∀ m ∈ msgs, ∃ r, m.getField "role" = some (.str r)
                  ∧ r ∈ ["user", "assistant", "tool", "system"])
    ∧ (∀ j s, jsonParse content = some j → parseSessionFile jsonParse content = .ok s →
        s = decodeSession j) := by
  constructor
  · constructor
    · rintro ⟨s, hs⟩
      rw [parseSessionFile_ok_iff] at hs
      obtain ⟨hb, j, hj, _, hsid, msgs, hcm, hall, _⟩ := hs
      refine ⟨hb, j, hj, (sessionIdOk_iff j).mp hsid, msgs,
        (chatMessagesArr_iff j msgs).mp hcm, ?_⟩
      intro m hm
      exact (roleOk_iff m).mp (List.all_eq_true.mp hall m hm)
    · rintro ⟨hb, j, hj, hsid, msgs, hcm, hroles⟩
      refine ⟨decodeSession j, (parseSessionFile_ok_iff _ _ _).mpr
        ⟨hb, j, hj, ?_, (sessionIdOk_iff j).mpr hsid, msgs,
         (chatMessagesArr_iff j msgs).mpr hcm,
         List.all_eq_true.mpr (fun m hm => (roleOk_iff m).mpr (hroles m hm)), rfl⟩⟩
      obtain ⟨sid, hf, _⟩ := hsid
      exact getField_some_isObj hf
  · intro j s hj hs
    rw [parseSessionFile_ok_iff] at hs
    obtain ⟨_, j2, hj2, _, _, _, _, _, hdec⟩ := hs
    rw [hj] at hj2
    injection hj2 with h2
    rw [hdec, h2]

/-- C7 witness: the scenario file parses successfully to its decoded
structure. -/
theorem session_parser_success_iff_witness :
    parseSessionFile demoParse "FILE_A" = .ok (decodeSession demoJson) := by
  have hroles : ∀ m ∈ [Json.obj [("role", Json.str "user"), ("content", Json.str "abcd")],
      Json.obj [("role", Json.str "assistant"), ("content", Json.str "abcdefgh")]],
      ∃ r, m.getField "role" = some (.str r)
        ∧ r ∈ ["user", "assistant", "tool", "system"] := by
    intro m hm
    fin_cases hm
    · exact ⟨"user", rfl, by decide⟩
    · exact ⟨"assistant", rfl, by decide⟩
  obtain ⟨s, hs⟩ := (session_parser_success_iff demoParse "FILE_A").1.mpr
    ⟨by decide, demoJson, rfl, ⟨"s1", rfl, by decide⟩,
     [.obj [("role", .str "user"), ("content", .str "abcd")],
      .obj [("role", .str "assistant"), ("content", .str "abcdefgh")]], rfl, hroles⟩
  have hdec := (session_parser_success_iff demoParse "FILE_A").2 demoJson s rfl hs
  rw [← hdec]
  exact hs

/-- If the per-line filter returns ok, every surviving entry has a valid
timestamp and the result is exactly the prefix-matched entries. -/
lemma filterValidUsage_eq (L : DateLib) (date : String)
    (es : List (Option CopilotUsage))
    (h : ∀ e ∈ es, ∀ v, e = some v → v.timestamp ≠ none) :
    filterValidUsage L date es = .ok (es.filterMap (fun e =>
      e.bind (fun u =>
        match u.timestamp with
        | some t => if strLeads (L.toISOString t) date then some u else none
        | none => none))) := by
  induction es with
  | nil => rfl
  | cons e rest ih =>
    have hrest : ∀ e2 ∈ rest, ∀ v, e2 = some v → v.timestamp ≠ none :=
      fun e2 he2 v hv => h e2 (List.mem_cons_of_mem _ he2) v hv
    rcases e with _ | u
    · rw [List.filterMap_cons]
      exact ih hrest
    · rcases ht : u.timestamp with _ | t
      · exact absurd ht (h (some u) (List.mem_cons_self _ _) u rfl)
      · rw [filterValidUsage, ht, ih hrest]
        rw [List.filterMap_cons]
        simp only [Option.bind_some, Option.some_bind, ht]
        by_cases hp : strLeads (L.toISOString t) date <;> simp [hp, Except.map]

/-- C8: `readForDate` splits the store into lines, drops blank lines and
every line whose parse fails, and — provided each line that does parse
carries a parseable timestamp — returns exactly the events whose
re-serialized timestamp starts with the queried date string. -/
theorem readForDate_filters_and_drops (L : DateLib)
    (parseLine : String → Option CopilotUsageRaw) (logData date : String)
    (h : ∀ line ∈ (splitChar '\n' logData).filter (fun l => !isBlank l),
      ∀ r, parseLine line = some r → L.parse r.timestamp ≠ none) :
    getUsageForDate L parseLine (some logData) date = .ok
      (((splitChar '\n' logData).filter (fun l => !isBlank l)).filterMap (fun line =>
        (parseLine line).bind (fun r =>
          match L.parse r.timestamp with
          | some t => if strLeads (L.toISOString t) date then some (toUsage L r) else none
          | none => none))) := by
  rw [getUsageForDate]
  rw [filterValidUsage_eq]
  · rw [List.filterMap_map]
    have hfun : ∀ line, ((fun (e : Option CopilotUsage) =>
        e.bind (fun u =>
          match u.timestamp with
          | some t => if strLeads (L.toISOString t) date then some u else none
          | none => none)) ∘ (fun line => (parseLine line).map (toUsage L))) line
        = (parseLine line).bind (fun r =>
            match L.parse r.timestamp with
            | some t => if strLeads (L.toISOString t) date then some (toUsage L r) else none
            | none => none) := by
      intro line
      rcases hr : parseLine line with _ | r
      · simp [hr]
      · simp only [Function.comp, hr, Option.map_some, Option.bind_some]
        rfl
    exact congrArg Except.ok (List.filterMap_congr (fun line _ => hfun line))
  · intro e he v hv
    obtain ⟨line, hline, hmap⟩ := List.mem_map.mp he
    rcases hr : parseLine line with _ | r
    · rw [hr] at hmap
      rw [← hmap] at hv
      exact Option.noConfusion hv
    · rw [hr] at hmap
      rw [← hmap] at hv
      injection hv with hv2
      rw [← hv2]
      exact h line hline r hr

/-- C8 witness: the spec scenario — a store with one event on 2024-01-15
and one on 2024-01-16, queried for "2024-01-15", returns exactly one
event, the one from the 15th. -/
theorem readForDate_filters_and_drops_witness :
    getUsageForDate demoLogLib demoLogParse (some "L-15\nL-16") "2024-01-15"
      = .ok [toUsage demoLogLib rawJan15] := by
  rw [readForDate_filters_and_drops]
  · rfl
  · intro line hline r hr
    fin_cases hline
    · have hr2 : some rawJan15 = some r := hr
      injection hr2 with hr3
      rw [← hr3]
      decide
    · have hr2 : some rawJan16 = some r := hr
      injection hr2 with hr3
      rw [← hr3]
      decide

/-- If some line is valid JSON but its timestamp does not parse, the read
aborts with an error. -/
lemma filterValidUsage_error (L : DateLib) (date : String)
    (es : List (Option CopilotUsage))
    (h : ∃ e ∈ es, ∃ v, e = some v ∧ v.timestamp = none) :
    ∃ msg, filterValidUsage L date es = .error msg := by
  induction es with
  | nil => obtain ⟨e, he, _⟩ := h; cases he
  | cons e rest ih =>
    obtain ⟨e2, he2, v, hv, ht⟩ := h
    rcases List.mem_cons.mp he2 with rfl | hmem
    · rw [hv, filterValidUsage, ht]
      exact ⟨_, rfl⟩
    · rcases e with _ | u
      · exact ih ⟨e2, hmem, v, hv, ht⟩
      · rcases hut : u.timestamp with _ | t
        · rw [filterValidUsage, hut]
          exact ⟨_, rfl⟩
        · obtain ⟨msg, hmsg⟩ := ih ⟨e2, hmem, v, hv, ht⟩
          rw [filterValidUsage, hut, hmsg]
          exact ⟨msg, rfl⟩

/-- C9: a line that parses as JSON but whose timestamp does not parse to a
valid date makes the whole `readForDate` call throw (the RangeError from
`toISOString` escapes the per-line handler), rather than being dropped. -/
theorem readForDate_invalid_timestamp_throws (L : DateLib)
    (parseLine : String → Option CopilotUsageRaw) (logData date : String)
    (h : ∃ line ∈ (splitChar '\n' logData).filter (fun l => !isBlank l),
      ∃ r, parseLine line = some r ∧ L.parse r.timestamp = none) :
    ∃ msg, getUsageForDate L parseLine (some logData) date = .error msg := by
  rw [getUsageForDate]
  apply filterValidUsage_error
  obtain ⟨line, hline, r, hr, ht⟩ := h
  refine ⟨some (toUsage L r), ?_, toUsage L r, rfl, ht⟩
  have := List.mem_map_of_mem (fun line => (parseLine line).map (toUsage L)) hline
  simpa [hr] using this

/-- C9 witness: a store holding one valid event and one valid-JSON line
with the unparseable timestamp "not-a-date" makes the whole read throw. -/
theorem readForDate_invalid_timestamp_throws_witness :
    ∃ msg, getUsageForDate demoLogLib demoLogParse (some "L-15\nL-BAD-TS") "2024-01-15"
      = .error msg := by
  apply readForDate_invalid_timestamp_throws
  refine ⟨"L-BAD-TS", by decide, rawBadTs, by decide, by decide⟩

lemma lookupHour_updateAssoc (k : String) (f : HourlyStats → HourlyStats) (l : List (String × HourlyStats)) :
    lookupHour k (updateAssoc k f l) = (lookupHour k l).map f := by
  induction l with
  | nil => rfl
  | cons p rest ih =>
    obtain ⟨k2, v⟩ := p
    by_cases hk : k2 = k
    · simp [updateAssoc, lookupHour, hk]
    · simp [updateAssoc, lookupHour, hk, ih]

lemma initHourly_lookup : ∀ h, h < 24 → lookupHour (pad2 h) initHourly = some zeroHourly := by
  decide

/-- C10 counterexample: a session whose `endTime` is 300 ms before its
`startTime` gets duration `Math.round(-0.3) = 0`, which is NOT negative —
the claim's "earlier endTime implies negative duration" fails for
sub-half-second gaps. -/
theorem negative_duration_cex :
    backwardsLib.parse "T-START" = some 500
    ∧ backwardsLib.parse "T-END" = some 200
    ∧ (200 : Int) < 500
    ∧ (calculateSessionMetrics backwardsLib 1000 backwardsSession).duration = 0
    ∧ ¬ (calculateSessionMetrics backwardsLib 1000 backwardsSession).duration < 0 :=
  ⟨rfl, rfl, by decide, by decide, by decide⟩

/-- C10 amended: with both timestamps present and parseable and `endTime`
more than 500 ms earlier than `startTime` (so the rounded second count is
negative), the duration is negative — it is never clamped at zero — and the
negative value propagates into `totalDuration` and the session's hour
bucket of the hourly breakdown. -/
theorem negative_duration_amended (L : DateLib) (now : Int) (s : SessionData)
    (d : String) (a b : Int)
    (hst : jsTruthyStr s.startTime = true)
    (het : jsTruthyStr s.endTime = true)
    (ha : L.parse (s.startTime.getD "") = some a)
    (hb : L.parse (s.endTime.getD "") = some b)
    (hlt : b - a < -500)
    (hh : L.getHours a < 24) :
    (calculateSessionMetrics L now s).duration < 0
    ∧ (aggregateDailyStats L d [calculateSessionMetrics L now s]).totalDuration
        = (calculateSessionMetrics L now s).duration
    ∧ ∃ hs, lookupHour (pad2 (L.getHours a))
          (aggregateDailyStats L d [calculateSessionMetrics L now s]).hourlyBreakdown = some hs
        ∧ hs.duration < 0 := by
  have hdur : (calculateSessionMetrics L now s).duration = jsRound1000 (b - a) := by
    simp [calculateSessionMetrics, sessionDuration, hst, het, ha, hb]
  have hneg : (calculateSessionMetrics L now s).duration < 0 := by
    rw [hdur, jsRound1000]
    omega
  refine ⟨hneg, ?_, ?_⟩
  · simp [aggregateDailyStats]
  · have hkeys : (aggregateDailyStats L d [calculateSessionMetrics L now s]).hourlyBreakdown
        = updateAssoc (pad2 (L.getHours a)) (addMetricsToHour (calculateSessionMetrics L now s)) initHourly := by
      have hmst : (calculateSessionMetrics L now s).startTime = s.startTime := rfl
      simp [aggregateDailyStats, calculateHourlyBreakdown, hourlyStep, hmst, hst, ha]
    refine ⟨addMetricsToHour (calculateSessionMetrics L now s) zeroHourly, ?_, ?_⟩
    · rw [hkeys, lookupHour_updateAssoc, initHourly_lookup _ hh]
      rfl
    · simpa [addMetricsToHour, zeroHourly] using hneg

/-- C10 witness: a session 1100 ms out of order has duration -1 s, and the
negative value shows up in `totalDuration` and the hour-00 bucket. -/
theorem negative_duration_amended_witness :
    jsTruthyStr bigGapSession.startTime = true
    ∧ backwardsLib.parse "T-START" = some 500
    ∧ backwardsLib.parse "T-END2" = some (-600)
    ∧ (-600 : Int) - 500 < -500
    ∧ (calculateSessionMetrics backwardsLib 0 bigGapSession).duration < 0
    ∧ (aggregateDailyStats backwardsLib "1970-01-01" [calculateSessionMetrics backwardsLib 0 bigGapSession]).totalDuration
        = (calculateSessionMetrics backwardsLib 0 bigGapSession).duration
    ∧ ∃ hs, lookupHour (pad2 (backwardsLib.getHours 500))
          (aggregateDailyStats backwardsLib "1970-01-01" [calculateSessionMetrics backwardsLib 0 bigGapSession]).hourlyBreakdown = some hs
        ∧ hs.duration < 0 := by
  have hmain := negative_duration_amended backwardsLib 0 bigGapSession "1970-01-01"
    500 (-600) (by decide) (by decide) rfl rfl (by decide) (by decide)
  exact ⟨by decide, rfl, rfl, by decide, hmain.1, hmain.2.1, hmain.2.2⟩

lemma exceptMap_ok {α β : Type} (f : α → β) (x : α) :
    Except.map (ε := String) f (.ok x) = .ok (f x) := rfl

lemma updateAssoc_keys (k : String) (f : HourlyStats → HourlyStats)
    (l : List (String × HourlyStats)) :
    (updateAssoc k f l).map Prod.fst = l.map Prod.fst := by
  induction l with
  | nil => rfl
  | cons p rest ih =>
    obtain ⟨k2, v⟩ := p
    by_cases hk : k2 = k <;> simp [updateAssoc, hk, ih]

lemma hourlyStep_keys (L : DateLib) (acc : List (String × HourlyStats)) (m : SessionMetrics) :
    (hourlyStep L acc m).map Prod.fst = acc.map Prod.fst := by
  rw [hourlyStep]
  rcases hst : jsTruthyStr m.startTime with _ | _
  · rfl
  · rcases hp : L.parse (m.startTime.getD "") with _ | t
    · rfl
    · simp [updateAssoc_keys]

lemma foldl_hourlyStep_keys (L : DateLib) (ms : List SessionMetrics)
    (acc : List (String × HourlyStats)) :
    (ms.foldl (hourlyStep L) acc).map Prod.fst = acc.map Prod.fst := by
  induction ms generalizing acc with
  | nil => rfl
  | cons m rest ih => rw [List.foldl_cons, ih, hourlyStep_keys]

lemma initHourly_keys : initHourly.map Prod.fst = hours24 := by
  simp [initHourly, hours24, List.map_map]

lemma lookupHour_isSome_iff_mem (k : String) (l : List (String × HourlyStats)) :
    (lookupHour k l).isSome = true ↔ k ∈ l.map Prod.fst := by
  induction l with
  | nil => simp [lookupHour]
  | cons p rest ih =>
    obtain ⟨k2, v⟩ := p
    by_cases hk : k2 = k
    · simp [lookupHour, hk]
    · simp [lookupHour, hk, ih, Ne.symm hk]

lemma bumpHourly_mem_keys (k k0 : String) (u : CopilotUsage)
    (acc : List (String × HourlyStats)) :
    k ∈ (bumpHourly k0 u acc).map Prod.fst ↔ k ∈ acc.map Prod.fst ∨ k = k0 := by
  rw [bumpHourly]
  rcases hlk : (lookupHour k0 acc).isNone with _ | _
  · have hsome : (lookupHour k0 acc).isSome = true := by
      rcases h2 : lookupHour k0 acc with _ | v
      · rw [h2] at hlk; simp at hlk
      · rfl
    rw [lookupHour_isSome_iff_mem] at hsome
    simp only [Bool.false_eq_true, if_false, updateAssoc_keys]
    constructor
    · exact Or.inl
    · rintro (h | rfl)
      · exact h
      · exact hsome
  · simp [updateAssoc_keys]

lemma foldl_loggerHourStep_mem_keys (L : DateLib) (us : List CopilotUsage)
    (acc : List (String × HourlyStats)) (k : String) :
    k ∈ (us.foldl (loggerHourStep L) acc).map Prod.fst
      ↔ k ∈ acc.map Prod.fst
        ∨ ∃ u ∈ us, ∃ t, u.timestamp = some t ∧ pad2 (L.getHours t) = k := by
  induction us generalizing acc with
  | nil => simp
  | cons u rest ih =>
    rw [List.foldl_cons, ih]
    have hstep : k ∈ (loggerHourStep L acc u).map Prod.fst
        ↔ k ∈ acc.map Prod.fst ∨ ∃ t, u.timestamp = some t ∧ pad2 (L.getHours t) = k := by
      rw [loggerHourStep]
      rcases ht : u.timestamp with _ | t
      · simp [ht]
      · rw [bumpHourly_mem_keys]
        simp [ht, eq_comm]
    rw [hstep]
    constructor
    · rintro ((h | h) | ⟨u2, hu2, t, ht, hk⟩)
      · exact Or.inl h
      · exact Or.inr ⟨u, List.mem_cons_self _ _, h⟩
      · exact Or.inr ⟨u2, List.mem_cons_of_mem _ hu2, t, ht, hk⟩
    · rintro (h | ⟨u2, hu2, t, ht, hk⟩)
      · exact Or.inl (Or.inl h)
      · rcases List.mem_cons.mp hu2 with rfl | hmem
        · exact Or.inl (Or.inr ⟨t, ht, hk⟩)
        · exact Or.inr ⟨u2, hmem, t, ht, hk⟩


/-- C2 counterexample: the usage-log-store daily aggregation with no events
returns an EMPTY `hourlyBreakdown` — zero keys, not the 24 keys "00".."23"
the claim requires of every aggregation operation. -/
theorem hourly_keys_cex :
    (getDailyStats demoLogLib demoLogParse (some "") "2024-01-15").map
        (fun st => st.hourlyBreakdown.map Prod.fst) = .ok []
    ∧ ([] : List String) ≠ hours24 := by
  exact ⟨by decide, by decide⟩

/-- C2 amended: the SESSION-derived daily aggregation always produces all
24 hour keys "00".."23" in order; the usage-log-store aggregation instead
creates buckets lazily — its `hourlyBreakdown` holds exactly the hours at
which some selected event occurred (and is empty when there are none). -/
theorem hourly_keys_amended :
    (∀ (L : DateLib) (jsonParse : String → Option Json) (now : Int) (d : String)
        (files : List String),
      (getUsageByDate L jsonParse now d files).hourlyBreakdown.map Prod.fst = hours24)
    ∧ (∀ (L : DateLib) (parseLine : String → Option CopilotUsageRaw)
        (logFile : Option String) (d : String) (us : List CopilotUsage) (st : DailyStats),
        getUsageForDate L parseLine logFile d = .ok us →
        getDailyStats L parseLine logFile d = .ok st →
        ∀ k, k ∈ st.hourlyBreakdown.map Prod.fst
          ↔ ∃ u ∈ us, ∃ t, u.timestamp = some t ∧ pad2 (L.getHours t) = k) := by
  constructor
  · intro L jsonParse now d files
    rw [getUsageByDate, aggregateDailyStats]
    by_cases h : (files.filterMap (fun content =>
        match parseSessionFile jsonParse content with
        | .error _ => none
        | .ok sessionData =>
          if isSessionFromTargetDate L now sessionData d
          then some (calculateSessionMetrics L now sessionData)
          else none)).isEmpty
    · simp only [h, if_true, createEmptyStats]
      exact initHourly_keys
    · simp only [h, Bool.false_eq_true, if_false]
      rw [calculateHourlyBreakdown, foldl_hourlyStep_keys]
      exact initHourly_keys
  · intro L parseLine logFile d us st hus hst
    rw [getDailyStats, hus, exceptMap_ok] at hst
    injection hst with hst2
    by_cases hemp : us.isEmpty
    · have : us = [] := List.isEmpty_iff.mp hemp
      subst this
      rw [← hst2]
      simp [hemp, emptyLoggerStats]
    · rw [← hst2]
      simp only [hemp, Bool.false_eq_true, if_false]
      intro k
      rw [foldl_loggerHourStep_mem_keys]
      simp

/-- C2 witness for the log-store half: a store with one event at 10:00
local time has the key "10" in its hourly breakdown. -/
theorem hourly_keys_amended_witness :
    getUsageForDate demoLogLib demoLogParse (some "L-15") "2024-01-15"
      = .ok [toUsage demoLogLib rawJan15]
    ∧ (getDailyStats demoLogLib demoLogParse (some "L-15") "2024-01-15").map
        (fun st => decide ("10" ∈ st.hourlyBreakdown.map Prod.fst)) = .ok true := by
  have h1 : getUsageForDate demoLogLib demoLogParse (some "L-15") "2024-01-15"
      = .ok [toUsage demoLogLib rawJan15] := rfl
  refine ⟨h1, ?_⟩
  cases hgd : getDailyStats demoLogLib demoLogParse (some "L-15") "2024-01-15" with
  | error e =>
    rw [getDailyStats, h1] at hgd
    exact Except.noConfusion hgd
  | ok st =>
    have hmem := (hourly_keys_amended.2 demoLogLib demoLogParse (some "L-15")
        "2024-01-15" [toUsage demoLogLib rawJan15] st h1 hgd "10").mpr
      ⟨toUsage demoLogLib rawJan15, List.mem_cons_self _ _, 1705312800000, rfl, rfl⟩
    exact congrArg Except.ok (decide_eq_true hmem)

lemma foldl_add_map {α M : Type} [AddCommMonoid M] (f : α → M) (l : List α) (n : M) :
    l.foldl (fun a x => a + f x) n = n + (l.map f).sum := by
  induction l generalizing n with
  | nil => simp
  | cons x rest ih => rw [List.foldl_cons, ih, List.map_cons, List.sum_cons, add_assoc]

lemma addMetricsToHour_comm (m1 m2 : SessionMetrics) (v : HourlyStats) :
    addMetricsToHour m1 (addMetricsToHour m2 v) = addMetricsToHour m2 (addMetricsToHour m1 v) := by
  simp only [addMetricsToHour, HourlyStats.mk.injEq]
  refine ⟨?_, ?_, ?_, ?_⟩ <;> ring

lemma updateAssoc_swap (k1 k2 : String) (f g : HourlyStats → HourlyStats)
    (hfg : ∀ v, f (g v) = g (f v)) (l : List (String × HourlyStats)) :
    updateAssoc k1 f (updateAssoc k2 g l) = updateAssoc k2 g (updateAssoc k1 f l) := by
  induction l with
  | nil => rfl
  | cons p rest ih =>
    obtain ⟨k, v⟩ := p
    by_cases h2 : k = k2
    · subst h2
      by_cases h1 : k = k1
      · subst h1
        simp [updateAssoc, hfg]
      · simp [updateAssoc, h1]
    · by_cases h1 : k = k1
      · subst h1
        simp [updateAssoc, h2]
      · simp [updateAssoc, h1, h2, ih]

lemma hourlyStep_rightcomm (L : DateLib) (acc : List (String × HourlyStats))
    (m1 m2 : SessionMetrics) :
    hourlyStep L (hourlyStep L acc m1) m2 = hourlyStep L (hourlyStep L acc m2) m1 := by
  rcases h1 : jsTruthyStr m1.startTime with _ | _ <;>
    rcases h2 : jsTruthyStr m2.startTime with _ | _ <;>
      simp only [hourlyStep, h1, h2, Bool.false_eq_true, if_false, if_true]
  rcases p1 : L.parse (m1.startTime.getD "") with _ | t1 <;>
    rcases p2 : L.parse (m2.startTime.getD "") with _ | t2 <;>
      simp only [p1, p2]
  exact updateAssoc_swap _ _ _ _ (addMetricsToHour_comm m2 m1) acc

/-- The daily fold is invariant under permutations of the metrics list. -/
lemma aggregateDailyStats_perm (L : DateLib) (d : String)
    {ms1 ms2 : List SessionMetrics} (p : ms1.Perm ms2) :
    aggregateDailyStats L d ms1 = aggregateDailyStats L d ms2 := by
  have hlen : ms1.length = ms2.length := p.length_eq
  by_cases he : ms1.isEmpty
  · have h1 : ms1 = [] := List.isEmpty_iff.mp he
    subst h1
    have h2 : ms2 = [] := (List.perm_nil.mp p.symm)
    subst h2
    rfl
  · have he2 : ¬ ms2.isEmpty := by
      intro hc
      have h2 : ms2 = [] := List.isEmpty_iff.mp hc
      subst h2
      exact he (List.isEmpty_iff.mpr (List.perm_nil.mp p))
    have ht : ms1.foldl (fun sum s => sum + s.tokens) (0 : Nat)
        = ms2.foldl (fun sum s => sum + s.tokens) (0 : Nat) := by
      rw [foldl_add_map, foldl_add_map, (p.map _).sum_eq]
    have hpr : ms1.foldl (fun sum s => sum + s.prompts) (0 : Nat)
        = ms2.foldl (fun sum s => sum + s.prompts) (0 : Nat) := by
      rw [foldl_add_map, foldl_add_map, (p.map _).sum_eq]
    have hd : ms1.foldl (fun sum s => sum + s.duration) (0 : Int)
        = ms2.foldl (fun sum s => sum + s.duration) (0 : Int) := by
      rw [foldl_add_map, foldl_add_map, (p.map _).sum_eq]
    have hh : calculateHourlyBreakdown L ms1 = calculateHourlyBreakdown L ms2 :=
      p.foldl_eq' (fun x _ y _ z => hourlyStep_rightcomm L z x y) initHourly
    rw [aggregateDailyStats, aggregateDailyStats, if_neg he, if_neg he2, ht, hpr, hd, hlen, hh]

/-- C6: the daily aggregation is a deterministic pure query — in this pure
model re-running it on the same inputs is definitionally the same value,
and, substantively, the result does not depend on the order in which the
session files are scanned: any permutation of the file list yields the
identical DailyStats. -/
theorem daily_aggregation_order_invariant (L : DateLib) (jsonParse : String → Option Json)
    (now : Int) (targetDate : String) (files1 files2 : List String)
    (hp : files1.Perm files2) :
    getUsageByDate L jsonParse now targetDate files1
      = getUsageByDate L jsonParse now targetDate files2 := by
  rw [getUsageByDate, getUsageByDate]
  exact aggregateDailyStats_perm L targetDate (hp.filterMap _)

/-- C6 witness: swapping the two files of a concrete scan leaves the
DailyStats unchanged. -/
theorem daily_aggregation_order_invariant_witness :
    (["FILE_A", "garbage"] : List String).Perm ["garbage", "FILE_A"]
    ∧ getUsageByDate demoLib demoParse 1705400000000 "2024-01-15" ["FILE_A", "garbage"]
      = getUsageByDate demoLib demoParse 1705400000000 "2024-01-15" ["garbage", "FILE_A"] :=
  ⟨List.Perm.swap "garbage" "FILE_A" [],
   daily_aggregation_order_invariant demoLib demoParse 1705400000000 "2024-01-15"
     ["FILE_A", "garbage"] ["garbage", "FILE_A"] (List.Perm.swap "garbage" "FILE_A" [])⟩

end CopilotStatus
